import Mathlib

/-!
Verification of the FlightTracer core pipeline (`flight_tracer/core.py`)
against its natural-language specification.

The development shallowly embeds the code paths exercised by the claims:
the Query Builder (`generate_urls`), the Leg Segmenter
(`process_flight_data`) and the Geometry Builder (`create_linestrings`).
Pandas frames become lists of typed rows; each row carries the pandas
index label it had in the frame, because `process_flight_data` assigns
the call-sign series back onto a sorted frame and pandas aligns that
assignment by index label, not by position.  Machine floats never carry
algorithmic content here (times are whole seconds, coordinates are only
compared for equality), so times are `Int` seconds and coordinates are
integer-scaled degrees.
-/

namespace FlightTracer

/-- Altitude cell of the trace table: numeric feet or the string
sentinel `"ground"`. -/
inductive Altitude
  | ground
  | num (feet : Int)
deriving DecidableEq, Repr

/-- One raw trace row as fed to `process_flight_data`.
`idx` is the pandas index label the row carries in the frame.
`time` is the offset-seconds cell; `none` models a non-numeric value,
which `pd.to_numeric(..., errors="coerce")` turns into NaN and
`dropna(subset=["time"])` then removes.
`flight` is the `"flight"` key of the row's `details` payload
(`none` = key absent, hence NaN after `pd.json_normalize`). -/
structure RawRow where
  idx : Nat
  icao : String
  timestamp : Int
  time : Option Int
  lat : Int
  lon : Int
  altitude : Altitude
  ground_speed : Int
  heading : Int
  flight : Option String
deriving DecidableEq, Repr

/-- A raw trace table: the rows plus whether the `details` column is
present (`process_flight_data` branches on `"details" in df.columns`). -/
structure RawFrame where
  hasDetails : Bool
  rows : List RawRow
deriving DecidableEq, Repr

/-- Lexicographic comparison of character lists, the order Python (and
hence pandas) uses on strings: by code point, a proper prefix first. -/
def charListLt : List Char → List Char → Bool
  | [], [] => false
  | [], _ :: _ => true
  | _ :: _, [] => false
  | a :: as, b :: bs =>
    if a < b then true else if b < a then false else charListLt as bs

/-- Strict lexicographic order on strings. -/
def strLt (a b : String) : Bool := charListLt a.data b.data

/-- Comparison used for the `time` cell by
`sort_values(['icao', 'timestamp', 'time'])`: NaN (`none`) sorts last,
pandas' default `na_position="last"`. -/
def timeLe : Option Int → Option Int → Bool
  | none, none => true
  | none, some _ => false
  | some _, none => true
  | some x, some y => decide (x ≤ y)

/-- Lexicographic row order of `df.sort_values(['icao', 'timestamp', 'time'])`. -/
def rawLeRel (a b : RawRow) : Prop :=
  strLt a.icao b.icao = true ∨
    (a.icao = b.icao ∧
      (a.timestamp < b.timestamp ∨
        (a.timestamp = b.timestamp ∧ timeLe a.time b.time = true)))

instance : DecidableRel rawLeRel := fun a b => by
  unfold rawLeRel; infer_instance

/-- The canonical sort of step 1 of the Leg Segmenter (a stable sort
standing in for `sort_values`). -/
def sortRaw (l : List RawRow) : List RawRow := List.insertionSort rawLeRel l

/-- Row surviving `pd.to_numeric` + `dropna(subset=["time"])`, with
`point_time = timestamp + time` attached (line 159 of core.py). -/
structure SRow where
  idx : Nat
  icao : String
  timestamp : Int
  time : Int
  point_time : Int
  lat : Int
  lon : Int
  altitude : Altitude
  ground_speed : Int
  heading : Int
  flight : Option String
deriving DecidableEq, Repr

/-- Numeric coercion of one row: non-numeric offsets are dropped. -/
def coerceRow (r : RawRow) : Option SRow :=
  r.time.map fun t =>
    ⟨r.idx, r.icao, r.timestamp, t, r.timestamp + t, r.lat, r.lon,
     r.altitude, r.ground_speed, r.heading, r.flight⟩

/-- `dropna(subset=["time"])` plus the `point_time` computation. -/
def coerceRows (l : List RawRow) : List SRow := l.filterMap coerceRow

/-- Python `str.strip()` on the call-sign cell: drop leading and
trailing whitespace. -/
def pyStrip (s : String) : String :=
  ⟨((s.data.dropWhile Char.isWhitespace).reverse.dropWhile Char.isWhitespace).reverse⟩

/-- `Series.ffill()`: every NaN takes the most recent non-NaN value
before it (`last` is the value carried in). -/
def ffill (last : Option String) : List (Option String) → List (Option String)
  | [] => []
  | x :: xs =>
    match x with
    | some v => some v :: ffill (some v) xs
    | none => last :: ffill last xs

/-- The positional call-sign series
`details_df["flight"].str.strip().ffill().fillna("UNKNOWN")`, computed
over the sorted surviving rows.  `pd.json_normalize` gives `details_df`
a fresh range index, so position `i` of this list carries label `i`. -/
def callSignSeries (l : List SRow) : List String :=
  (ffill none (l.map fun r => r.flight.map pyStrip)).map fun v => v.getD "UNKNOWN"

/-- The assignment `df["call_sign"] = series` with pandas index
alignment: the series carries labels `0..n-1`, so the row labelled `i`
receives the series value at position `i`, and a row whose label is out
of range receives NaN (`none`).  When the `details` column is absent, or
`details_df` has no `"flight"` column (no row carries the key), the code
assigns the scalar `"UNKNOWN"` instead, which broadcasts to every row. -/
def assignCallSigns (hasDetails : Bool) (l : List SRow) : List (SRow × Option String) :=
  if hasDetails then
    if l.all fun r => r.flight = none then
      l.map fun r => (r, some "UNKNOWN")
    else
      let series := callSignSeries l
      l.map fun r => (r, series[r.idx]?)
  else
    l.map fun r => (r, some "UNKNOWN")

/-- Row annotated with the segmentation columns of lines 180-182:
`time_diff`, `new_leg`, `leg_id` (the latter is `none` for a row whose
call sign is NaN, which `groupby` excludes). -/
structure ARow where
  row : SRow
  call_sign : Option String
  time_diff : Option Int
  new_leg : Nat
  leg_id : Option Nat
deriving DecidableEq, Repr

/-- State of the group-by scan: for each (icao, call_sign) key the last
`point_time` seen and the cumulative sum of `new_leg` so far. -/
abbrev SegState := List ((String × String) × (Int × Nat))

/-- Dictionary lookup in the scan state (most recent entry wins). -/
def alookup (k : String × String) : SegState → Option (Int × Nat)
  | [] => none
  | (k₂, v) :: st => if k = k₂ then some v else alookup k st

/-- The group-by computation of lines 180-182 of core.py:
`time_diff` is `groupby(["icao", "call_sign"])["point_time"].diff()`
(delta to the previous row of the same group in frame order),
`new_leg` is `(time_diff > threshold_seconds).astype(int)` (NaN compares
false), and `leg_id` is the per-group cumulative sum of `new_leg` plus 1.
A row with NaN call sign belongs to no group and gets NaN `leg_id`. -/
def segRun (T : Int) : SegState → List (SRow × Option String) → List ARow
  | _, [] => []
  | st, (r, cs) :: rest =>
    match cs with
    | none => ⟨r, none, none, 0, none⟩ :: segRun T st rest
    | some s =>
      let k := (r.icao, s)
      match alookup k st with
      | none =>
        ⟨r, some s, none, 0, some 1⟩ ::
          segRun T ((k, (r.point_time, 0)) :: st) rest
      | some (lastPt, cum) =>
        let d := r.point_time - lastPt
        let nl : Nat := if T < d then 1 else 0
        ⟨r, some s, some d, nl, some (cum + nl + 1)⟩ ::
          segRun T ((k, (r.point_time, cum + nl)) :: st) rest

/-- `astype(str)` rendering of `leg_id` at line 183: when any row's
leg id is NaN the column dtype is float64, so integer ids render with a
trailing `.0`; otherwise the column is int64 and ids render plain. -/
def legIdStr (anyNa : Bool) : Option Nat → String
  | none => "nan"
  | some k => if anyNa then toString k ++ ".0" else toString k

/-- `df["flight_leg"] = df["call_sign"].fillna("UNKNOWN") + "_leg" + df["leg_id"].astype(str)`. -/
def flightLegKey (anyNa : Bool) (a : ARow) : String :=
  a.call_sign.getD "UNKNOWN" ++ "_leg" ++ legIdStr anyNa a.leg_id

/-- One row of the Leg Segmenter's output (the `output_columns`
selection of lines 188-193 plus the point geometry). -/
structure ORow where
  point_time : Int
  altitude : Altitude
  ground_speed : Int
  heading : Int
  lat : Int
  lon : Int
  icao : String
  call_sign : Option String
  leg_id : Option Nat
  flight_leg : String
  geometry : Int × Int
deriving DecidableEq, Repr

/-- A GeoDataFrame: rows plus the coordinate reference system. -/
structure GeoFrame where
  crs : Option Nat
  rows : List ORow
deriving DecidableEq, Repr

/-- Column selection of lines 188-197: `gpd.points_from_xy(df.lon, df.lat)`
makes the geometry `(lon, lat)`. -/
def toORow (anyNa : Bool) (a : ARow) : ORow :=
  ⟨a.row.point_time, a.row.altitude, a.row.ground_speed, a.row.heading,
   a.row.lat, a.row.lon, a.row.icao, a.call_sign, a.leg_id,
   flightLegKey anyNa a, (a.row.lon, a.row.lat)⟩

/-- The Leg Segmenter, `FlightTracer.process_flight_data`
(core.py lines 154-198).  The display-only `timezone` column and the
unused `mapping_info` parameter are not modelled; every other step is,
in source order: canonical sort, numeric coercion and `dropna`,
call-sign extraction with index-aligned assignment, group-by
segmentation, `flight_leg` key composition, optional ground filter
(applied last), column selection, and `set_crs(epsg=4326)`. -/
def processFlightData (f : RawFrame) (filter_ground : Bool := true)
    (threshold_seconds : Int := 3600) : GeoFrame :=
  let srows := coerceRows (sortRaw f.rows)
  let withCs := assignCallSigns f.hasDetails srows
  let annotated := segRun threshold_seconds [] withCs
  let anyNa := annotated.any fun a => a.leg_id.isNone
  let kept :=
    if filter_ground then
      annotated.filter fun a => a.row.altitude != Altitude.ground
    else annotated
  ⟨some 4326, kept.map (toORow anyNa)⟩

/-- The columns `process_flight_data` selects into its output
(lines 188-191; `point_time_local` only exists when a timezone was
requested, which is not modelled). -/
def processOutputColumns : List String :=
  ["point_time", "altitude", "ground_speed", "heading", "lat", "lon",
   "icao", "call_sign", "leg_id", "flight_leg"]

/-- The columns line 155's `sort_values(['icao', 'timestamp', 'time'])`
requires; pandas raises `KeyError` when any is absent. -/
def segmenterSortColumns : List String := ["icao", "timestamp", "time"]

/-- `process_flight_data` with the column check of its first statement
made explicit: calling it on a frame whose schema lacks any of the sort
columns raises `KeyError` before touching a row. -/
def processFlightDataChecked (cols : List String) (f : RawFrame)
    (filter_ground : Bool := true) (threshold_seconds : Int := 3600) :
    Except String GeoFrame :=
  if segmenterSortColumns.all fun c => cols.contains c then
    Except.ok (processFlightData f filter_ground threshold_seconds)
  else
    Except.error "KeyError"

/-- Order on output rows used by `group.sort_values(point_time_column)`
inside `create_linestrings`. -/
def ptLeRel (x y : ORow) : Prop := x.point_time ≤ y.point_time

instance : DecidableRel ptLeRel := fun x y => by
  unfold ptLeRel; infer_instance

instance : IsTotal ORow ptLeRel := ⟨fun x y => Int.le_total x.point_time y.point_time⟩

instance : IsTrans ORow ptLeRel := ⟨fun _ _ _ h₁ h₂ => Int.le_trans h₁ h₂⟩

/-- Chronological (stable) sort of one leg's points. -/
def sortByPt (l : List ORow) : List ORow := List.insertionSort ptLeRel l

/-- Geometry of one leg record: `LineString(points) if len(points) > 1
else points[0]`. -/
inductive Geom
  | point (p : Int × Int)
  | line (ps : List (Int × Int))
deriving DecidableEq, Repr

/-- One record of the per-leg line frame (the `row_data` dict of
lines 228-235; `flight_date_pst` never occurs in the Leg Segmenter's
output modelled here, so its always-`None` cell is omitted). -/
structure LegRow where
  flight_leg : String
  icao : String
  call_sign : Option String
  leg_id : Option Nat
  geometry : Geom
deriving DecidableEq, Repr

/-- The per-leg output frame of `create_linestrings`. -/
structure LineFrame where
  crs : Option Nat
  legs : List LegRow
deriving DecidableEq, Repr

/-- String order for the group keys (pandas `groupby` yields its groups
with keys sorted ascending). -/
def strLeRel (a b : String) : Prop := strLt b a = false

instance : DecidableRel strLeRel := fun a b => by
  unfold strLeRel; infer_instance

/-- The distinct `flight_leg` keys of the frame, ascending, the order
`gdf.groupby(flight_leg_column)` iterates them. -/
def legKeys (l : List ORow) : List String :=
  List.insertionSort strLeRel ((l.map fun r => r.flight_leg).eraseDups)

/-- One iteration of the `groupby` loop of lines 222-237: sort the
group's rows chronologically, build a polyline unless the group is a
single point, and take the scalar attributes from the first sorted row.
`groupby` never produces an empty group, so an empty filter result
yields no record. -/
def buildLeg (l : List ORow) (k : String) : Option LegRow :=
  match sortByPt (l.filter fun r => decide (r.flight_leg = k)) with
  | [] => none
  | p :: rest =>
    some ⟨k, p.icao, p.call_sign, p.leg_id,
      if (p :: rest).length > 1 then
        Geom.line ((p :: rest).map fun r => r.geometry)
      else Geom.point p.geometry⟩

/-- The body of `create_linestrings` after its column checks
(lines 221-239): one record per distinct `flight_leg` key, and
`gpd.GeoDataFrame(legs, crs=gdf.crs)` carries the input CRS over. -/
def buildLegs (g : GeoFrame) : LineFrame :=
  ⟨g.crs, (legKeys g.rows).filterMap (buildLeg g.rows)⟩

/-- `FlightTracer.create_linestrings` (core.py lines 202-240): raise a
missing-column `KeyError` when the grouping column or the time column is
absent from the frame's schema, otherwise build the per-leg records.
The claims exercise the default column names, so the body groups by the
`flight_leg` field and sorts by `point_time` as the defaults do. -/
def create_linestrings (cols : List String) (g : GeoFrame)
    (flight_leg_column : String := "flight_leg")
    (point_time_column : String := "point_time") : Except String LineFrame :=
  if flight_leg_column ∉ cols then
    Except.error ("Expected column '" ++ flight_leg_column ++ "' not found in DataFrame.")
  else if point_time_column ∉ cols then
    Except.error ("Expected column '" ++ point_time_column ++ "' not found in DataFrame.")
  else
    Except.ok (buildLegs g)

/-- Flattening a leg geometry back to its vertex sequence (the inverse
direction of the round-trip property). -/
def flattenGeom : Geom → List (Int × Int)
  | .point p => [p]
  | .line ps => ps

/-- Python `icao[-2:]`: the identifier's last two characters (the whole
string when it is shorter). -/
def icaoSuffix (icao : String) : String :=
  ⟨icao.data.drop (icao.length - 2)⟩

/-- Proleptic-Gregorian calendar date of an integral day number
(days since 1970-01-01), as `(year, month, day)` — the data
`date.strftime` renders into the historical path. -/
def civilFromDays (z₀ : Int) : Int × Int × Int :=
  let z := z₀ + 719468
  let era := (if 0 ≤ z then z else z - 146096) / 146097
  let doe := z - era * 146097
  let yoe := (doe - doe / 1460 + doe / 36524 - doe / 146096) / 365
  let y := yoe + era * 400
  let doy := doe - (365 * yoe + yoe / 4 - yoe / 100)
  let mp := (5 * doy + 2) / 153
  let d := doy - (153 * mp + 2) / 5 + 1
  let m := mp + (if mp < 10 then 3 else -9)
  (y + (if m ≤ 2 then 1 else 0), m, d)

/-- Zero-padded two-digit rendering used by `strftime("%m")` / `%d`. -/
def pad2 (n : Int) : String :=
  if n < 10 then "0" ++ toString n else toString n

/-- One historical URL,
`{base}{year}/{month}/{day}/traces/{icao_suffix}/trace_full_{icao}.json`. -/
def histUrl (day : Int) (suffix icao : String) : String :=
  let c := civilFromDays day
  "https://globe.adsbexchange.com/globe_history/" ++ toString c.1 ++ "/" ++
    pad2 c.2.1 ++ "/" ++ pad2 c.2.2 ++ "/traces/" ++ suffix ++
    "/trace_full_" ++ icao ++ ".json"

/-- The single "recent" URL,
`{base}{icao_suffix}/trace_full_{icao}.json`. -/
def recentUrl (suffix icao : String) : String :=
  "https://globe.adsbexchange.com/data/traces/" ++ suffix ++
    "/trace_full_" ++ icao ++ ".json"

/-- The days visited by the loop
`while current_date <= end_date: ...; current_date += timedelta(days=1)`,
with dates as integral day numbers. -/
def dayRange (s e : Int) : List Int :=
  (List.range (e + 1 - s).toNat).map fun i : Nat => s + (i : Int)

/-- `FlightTracer.generate_urls` (core.py lines 60-94): per aircraft in
list order, either the one recent URL or one historical URL per calendar
day of `[start_date, end_date]`, ascending. -/
def generate_urls (aircraft_ids : List String) (start_date end_date : Int)
    (recent : Bool := false) : List (String × String) :=
  aircraft_ids.flatMap fun icao =>
    let suffix := icaoSuffix icao
    if recent then [(recentUrl suffix icao, icao)]
    else (dayRange start_date end_date).map fun d => (histUrl d suffix icao, icao)

/-- Self-contained view of the scan that one (icao, call_sign) group
undergoes inside `segRun`: the state is the group's (last `point_time`,
cumulative `new_leg`) pair, `none` before the group's first row. -/
def groupScan (T : Int) : Option (Int × Nat) → List (SRow × Option String) → List ARow
  | _, [] => []
  | none, (r, cs) :: rest =>
    ⟨r, cs, none, 0, some 1⟩ :: groupScan T (some (r.point_time, 0)) rest
  | some (lastPt, cum), (r, cs) :: rest =>
    ⟨r, cs, some (r.point_time - lastPt),
      if T < r.point_time - lastPt then 1 else 0,
      some (cum + (if T < r.point_time - lastPt then 1 else 0) + 1)⟩ ::
      groupScan T
        (some (r.point_time, cum + (if T < r.point_time - lastPt then 1 else 0))) rest

/-- Membership of an annotated row in the (`a`, `s`) group. -/
def groupPred (a s : String) (x : ARow) : Bool :=
  decide (x.row.icao = a ∧ x.call_sign = some s)

/-- Membership of a pre-segmentation row in the (`a`, `s`) group. -/
def pairPred (a s : String) (rc : SRow × Option String) : Bool :=
  decide (rc.1.icao = a ∧ rc.2 = some s)

/-- Relation between consecutive rows of one group in the segmenter's
output: the later row's `leg_id` is the earlier one's, incremented
exactly when the `point_time` gap strictly exceeds the threshold. -/
def legRelO (T : Int) (x y : ORow) : Prop :=
  ∃ m, x.leg_id = some m ∧
    y.leg_id = some (if T < y.point_time - x.point_time then m + 1 else m)

/-- The spec's concrete segmentation scenario: one aircraft, one base
timestamp, offsets `[0, 100, 4000]` seconds. -/
def exC1 : RawFrame :=
  ⟨false,
   [⟨0, "a", 0, some 0, 10, 20, Altitude.num 100, 5, 6, none⟩,
    ⟨1, "a", 0, some 100, 11, 21, Altitude.num 200, 5, 6, none⟩,
    ⟨2, "a", 0, some 4000, 12, 22, Altitude.num 300, 5, 6, none⟩]⟩

/-- Two rows whose index order disagrees with the canonical sort order
(the earlier ping carries label 1): the row labelled 0 carries call sign
"B" in its own details, the row labelled 1 carries "A". -/
def exC4 : RawFrame :=
  ⟨true,
   [⟨0, "a", 100, some 0, 10, 20, Altitude.num 100, 5, 6, some "B"⟩,
    ⟨1, "a", 50, some 0, 11, 21, Altitude.num 200, 5, 6, some "A"⟩]⟩

/-- A one-row raw frame, used to exercise re-running the segmenter on
its own output's schema. -/
def exReprocess : RawFrame :=
  ⟨true, [⟨0, "a", 0, some 0, 1, 2, Altitude.num 100, 3, 4, none⟩]⟩

/-- A two-point single-leg trace for the round-trip witness. -/
def exRound : RawFrame :=
  ⟨false,
   [⟨0, "b", 0, some 0, 1, 2, Altitude.num 50, 3, 4, none⟩,
    ⟨1, "b", 0, some 60, 5, 6, Altitude.num 70, 3, 4, none⟩]⟩

/-- The line record the Geometry Builder produces for `exRound`. -/
def exRoundLeg : LegRow :=
  ⟨"UNKNOWN_leg1", "b", some "UNKNOWN", some 1, Geom.line [(2, 1), (6, 5)]⟩

/-- A point frame with a single-point leg. -/
def exSingle : GeoFrame :=
  ⟨some 4326, [⟨0, Altitude.num 10, 1, 2, 3, 4, "c", some "CS", some 1, "CS_leg1", (4, 3)⟩]⟩

/-- The record the Geometry Builder produces for `exSingle`: a point
geometry, not a polyline. -/
def exSingleLeg : LegRow := ⟨"CS_leg1", "c", some "CS", some 1, Geom.point (4, 3)⟩

/-- A frame with one ground row and one airborne row. -/
def exGround : RawFrame :=
  ⟨false,
   [⟨0, "d", 0, some 0, 1, 2, Altitude.ground, 0, 0, none⟩,
    ⟨1, "d", 0, some 30, 3, 4, Altitude.num 500, 9, 9, none⟩]⟩

lemma alookup_cons_self (k : String × String) (v : Int × Nat) (st : SegState) :
    alookup k ((k, v) :: st) = some v := by
  simp [alookup]

lemma alookup_cons_ne (k k₂ : String × String) (v : Int × Nat) (st : SegState)
    (h : k ≠ k₂) : alookup k ((k₂, v) :: st) = alookup k st := by
  simp [alookup, h]

/-- The group-by scatter/gather law: restricting `segRun`'s output to one
(icao, call_sign) group gives exactly the self-contained scan of that
group's rows, threaded through the group's entry in the state. -/
lemma segRun_filter (T : Int) (a s : String) :
    ∀ (l : List (SRow × Option String)) (st : SegState),
      (segRun T st l).filter (groupPred a s)
        = groupScan T (alookup (a, s) st) (l.filter (pairPred a s)) := by
  intro l
  induction l with
  | nil =>
    intro st
    cases alookup (a, s) st <;> rfl
  | cons rc rest ih =>
    intro st
    obtain ⟨r, cs⟩ := rc
    match cs with
    | none =>
      have hp : groupPred a s ⟨r, none, none, 0, none⟩ = false := by
        simp [groupPred]
      have hq : pairPred a s (r, none) = false := by
        simp [pairPred]
      simp only [segRun, List.filter_cons, hp, hq, Bool.false_eq_true, if_false, ih st]
    | some s₂ =>
      by_cases hk : r.icao = a ∧ s₂ = s
      · obtain ⟨ha, hs⟩ := hk
        subst ha
        subst hs
        have hp : ∀ td nl li, groupPred r.icao s₂ ⟨r, some s₂, td, nl, li⟩ = true := by
          intro td nl li
          simp [groupPred]
        have hq : pairPred r.icao s₂ (r, some s₂) = true := by
          simp [pairPred]
        cases halk : alookup (r.icao, s₂) st with
        | none =>
          simp only [segRun, halk, List.filter_cons, hp, hq, if_true, ih,
            alookup_cons_self, groupScan]
        | some v =>
          obtain ⟨lastPt, cum⟩ := v
          simp only [segRun, halk, List.filter_cons, hp, hq, if_true, ih,
            alookup_cons_self, groupScan]
      · have hne : ((r.icao, s₂) : String × String) ≠ (a, s) := by
          intro hcontra
          apply hk
          exact ⟨congrArg Prod.fst hcontra, congrArg Prod.snd hcontra⟩
        have hp : ∀ td nl li, groupPred a s ⟨r, some s₂, td, nl, li⟩ = false := by
          intro td nl li
          simp only [groupPred, decide_eq_false_iff_not]
          rintro ⟨h1, h2⟩
          exact hne (by rw [h1, Option.some_inj.mp h2])
        have hq : pairPred a s (r, some s₂) = false := by
          simp only [pairPred, decide_eq_false_iff_not]
          rintro ⟨h1, h2⟩
          exact hne (by rw [h1, Option.some_inj.mp h2])
        cases halk : alookup (r.icao, s₂) st with
        | none =>
          simp only [segRun, halk, List.filter_cons, hp, hq, Bool.false_eq_true,
            if_false, ih, alookup_cons_ne _ _ _ _ (Ne.symm hne)]
        | some v =>
          obtain ⟨lastPt, cum⟩ := v
          simp only [segRun, halk, List.filter_cons, hp, hq, Bool.false_eq_true,
            if_false, ih, alookup_cons_ne _ _ _ _ (Ne.symm hne)]

/-- Within one group, from the second row on, each row's `leg_id` is the
previous row's incremented exactly on a strict threshold crossing. -/
lemma groupScan_chain (T : Int) (anyNa : Bool) :
    ∀ (l : List (SRow × Option String)) (pt : Int) (cum : Nat) (x : ARow),
      x.leg_id = some (cum + 1) → x.row.point_time = pt →
      List.Chain' (fun u v => legRelO T (toORow anyNa u) (toORow anyNa v))
        (x :: groupScan T (some (pt, cum)) l) := by
  intro l
  induction l with
  | nil =>
    intro pt cum x hx hpt
    simp [groupScan]
  | cons rc rest ih =>
    intro pt cum x hx hpt
    obtain ⟨r, cs⟩ := rc
    rw [groupScan, List.chain'_cons]
    constructor
    · refine ⟨cum + 1, hx, ?_⟩
      show some _ = some _
      rw [show (toORow anyNa ⟨r, cs, some (r.point_time - pt),
            if T < r.point_time - pt then 1 else 0,
            some (cum + (if T < r.point_time - pt then 1 else 0) + 1)⟩).point_time
          = r.point_time from rfl]
      rw [show (toORow anyNa x).point_time = x.row.point_time from rfl, hpt]
      by_cases hgap : T < r.point_time - pt
      · simp [hgap]
      · simp [hgap]
    · exact ih r.point_time (cum + (if T < r.point_time - pt then 1 else 0)) _ rfl rfl

/-- A group's first row always gets `leg_id = 1`. -/
lemma groupScan_none_head (T : Int) (l : List (SRow × Option String)) :
    ∀ y, (groupScan T none l).head? = some y → y.leg_id = some 1 := by
  cases l with
  | nil =>
    intro y h
    cases h
  | cons rc rest =>
    obtain ⟨r, cs⟩ := rc
    intro y h
    rw [groupScan, List.head?_cons, Option.some_inj] at h
    rw [← h]

/-- The per-group recurrence over a whole group, starting from no state. -/
lemma groupScan_none_chain (T : Int) (anyNa : Bool)
    (l : List (SRow × Option String)) :
    List.Chain' (fun u v => legRelO T (toORow anyNa u) (toORow anyNa v))
      (groupScan T none l) := by
  cases l with
  | nil => simp [groupScan]
  | cons rc rest =>
    obtain ⟨r, cs⟩ := rc
    rw [groupScan]
    exact groupScan_chain T anyNa rest r.point_time 0 _ rfl rfl

/-- Claim C1: in the Leg Segmenter's output, within each (aircraft_id,
call_sign) group taken in the canonical sort order, the first row has
`leg_id = 1` and each later row's `leg_id` is the previous group row's,
incremented exactly when the `point_time` gap strictly exceeds the
threshold — so leg ids start at 1 and only increment on a detected gap.
In particular, points at offsets `[0, 100, 4000]` from one base with
threshold 3600 get leg ids `[1, 1, 2]`. -/
theorem leg_segmentation_boundaries :
    (∀ (f : RawFrame) (T : Int) (a s : String),
      (∀ y, (((processFlightData f false T).rows.filter
            fun r => decide (r.icao = a ∧ r.call_sign = some s)).head? = some y →
          y.leg_id = some 1)) ∧
      List.Chain' (legRelO T)
        ((processFlightData f false T).rows.filter
          fun r => decide (r.icao = a ∧ r.call_sign = some s))) ∧
    (processFlightData exC1 false 3600).rows.map (fun r => r.leg_id)
      = [some 1, some 1, some 2] := by
  refine ⟨?_, by decide⟩
  intro f T a s
  obtain ⟨b, hb⟩ : ∃ b, (processFlightData f false T).rows
      = (segRun T [] (assignCallSigns f.hasDetails (coerceRows (sortRaw f.rows)))).map
          (toORow b) :=
    ⟨_, rfl⟩
  have hfil : (processFlightData f false T).rows.filter
      (fun r => decide (r.icao = a ∧ r.call_sign = some s))
      = (groupScan T none
          ((assignCallSigns f.hasDetails (coerceRows (sortRaw f.rows))).filter
            (pairPred a s))).map (toORow b) := by
    rw [hb, List.filter_map]
    rw [show ((fun r : ORow => decide (r.icao = a ∧ r.call_sign = some s)) ∘ toORow b)
        = groupPred a s from rfl]
    rw [segRun_filter]
    rfl
  rw [hfil]
  constructor
  · intro y hy
    rw [List.head?_map] at hy
    obtain ⟨u, hu, huy⟩ := Option.map_eq_some'.mp hy
    rw [← huy]
    exact groupScan_none_head T _ u hu
  · rw [List.chain'_map]
    exact groupScan_none_chain T b _

/-- Claim C2: the ground filter is applied after segmentation, so the
ground-filtered output is exactly the unfiltered output restricted to
non-ground rows — `leg_id` and `flight_leg` agree on every surviving
row, and the CRS is unchanged. -/
theorem ground_filter_after_segmentation (f : RawFrame) (T : Int) :
    (processFlightData f true T).rows
      = (processFlightData f false T).rows.filter
          (fun r => r.altitude != Altitude.ground)
    ∧ (processFlightData f true T).crs = (processFlightData f false T).crs := by
  refine ⟨?_, rfl⟩
  obtain ⟨b, hbT, hbF⟩ : ∃ b,
      (processFlightData f true T).rows
        = ((segRun T [] (assignCallSigns f.hasDetails (coerceRows (sortRaw f.rows)))).filter
            fun x => x.row.altitude != Altitude.ground).map (toORow b)
      ∧ (processFlightData f false T).rows
        = (segRun T [] (assignCallSigns f.hasDetails (coerceRows (sortRaw f.rows)))).map
            (toORow b) :=
    ⟨_, rfl, rfl⟩
  rw [hbT, hbF, List.filter_map]
  rfl

/-- Witness for C1: the first row of the ("a", "UNKNOWN") group of the
concrete scenario has `leg_id = 1`. -/
theorem leg_segmentation_boundaries_witness :
    (⟨0, Altitude.num 100, 5, 6, 10, 20, "a", some "UNKNOWN", some 1,
      "UNKNOWN_leg1", (20, 10)⟩ : ORow).leg_id = some 1 :=
  (leg_segmentation_boundaries.1 exC1 3600 "a" "UNKNOWN").1
    ⟨0, Altitude.num 100, 5, 6, 10, 20, "a", some "UNKNOWN", some 1,
      "UNKNOWN_leg1", (20, 10)⟩ (by decide)

/-- Counterexample for C3: re-running the Leg Segmenter on a frame carrying
its own output schema fails with `KeyError` at the initial
`sort_values(['icao', 'timestamp', 'time'])` — the output columns
contain neither `timestamp` nor `time` — so re-processing its own
output cannot succeed, let alone reproduce the leg assignments. -/
theorem reprocess_output_keyerror :
    processFlightDataChecked processOutputColumns exReprocess true 3600
      = Except.error "KeyError" := rfl

/-- Amended C3: applying the Leg Segmenter to any frame carrying the
segmenter's own output schema raises the missing-column `KeyError`
immediately, for every ground-filter flag and threshold. -/
theorem reprocess_output_fails (f : RawFrame) (fg : Bool) (T : Int) :
    processFlightDataChecked processOutputColumns f fg T
      = Except.error "KeyError" := rfl

/-- Claim C4 (code bug): the call-sign series is computed over the sorted frame but
carries a fresh positional index, and pandas aligns the assignment
`df["call_sign"] = series` by index label.  On `exC4`, whose index order
disagrees with the canonical sort order, each row receives the call sign
extracted from the *other* row: the outputs are `["B", "A"]` although
the rows' own details carry `["A", "B"]` in sort order. -/
theorem call_sign_misalignment :
    (processFlightData exC4 false 3600).rows.map (fun r => r.call_sign)
        = [some "B", some "A"]
    ∧ (coerceRows (sortRaw exC4.rows)).map (fun r => r.flight)
        = [some "A", some "B"] :=
  ⟨by decide, by decide⟩

/-- Claim C9: invoked without the ground-filter flag,
`process_flight_data` defaults the flag to `true`; with the flag on no
output row carries the ground sentinel, and only an explicit `false`
keeps ground points (as `exGround` shows). -/
theorem ground_filter_default_on (f : RawFrame) (T : Int) :
    processFlightData f = processFlightData f true
    ∧ (processFlightData f true T).rows.all
        (fun r => r.altitude != Altitude.ground) = true
    ∧ (processFlightData exGround false 3600).rows.map (fun r => r.altitude)
        = [Altitude.ground, Altitude.num 500]
    ∧ (processFlightData exGround true 3600).rows.map (fun r => r.altitude)
        = [Altitude.num 500] := by
  refine ⟨rfl, ?_, by decide, by decide⟩
  rw [List.all_eq_true]
  intro r hr
  obtain ⟨x, hx, hxr⟩ := List.mem_map.mp hr
  have hkeep := (List.mem_filter.mp hx).2
  rw [← hxr]
  simpa using hkeep

/-- Claim C10: `gpd.GeoDataFrame(legs, crs=gdf.crs)` — the Geometry Builder's
output frame carries exactly the input frame's CRS. -/
theorem linestrings_preserve_crs (g : GeoFrame) : (buildLegs g).crs = g.crs := rfl

/-- Claim C5: for `s ≤ e`, range mode yields the per-aircraft blocks in
identifier-list order, each block one URL per calendar day of `[s, e]`
ascending — hence `(e - s).days + 1` pairs per aircraft occurrence —
and recent mode yields exactly one pair per aircraft occurrence. -/
theorem query_builder_counts (ids : List String) (s e : Int) (h : s ≤ e) :
    generate_urls ids s e false
        = ids.flatMap (fun icao =>
            (dayRange s e).map fun d => (histUrl d (icaoSuffix icao) icao, icao))
    ∧ (∀ a, ((generate_urls ids s e false).filter fun p => decide (p.2 = a)).length
          = (ids.filter fun x => decide (x = a)).length * ((e - s).toNat + 1))
    ∧ (∀ a, ((generate_urls ids s e true).filter fun p => decide (p.2 = a)).length
          = (ids.filter fun x => decide (x = a)).length)
    ∧ List.Chain' (fun d₁ d₂ => d₁ < d₂) (dayRange s e) := by
  have hlen : (dayRange s e).length = (e - s).toNat + 1 := by
    rw [dayRange, List.length_map, List.length_range]
    omega
  refine ⟨rfl, ?_, ?_, ?_⟩
  · intro a
    induction ids with
    | nil => simp [generate_urls]
    | cons i rest ih =>
      have hblock : ((((dayRange s e).map
            fun d => (histUrl d (icaoSuffix i) i, i)).filter
              fun p => decide (p.2 = a)).length)
          = if i = a then (e - s).toNat + 1 else 0 := by
        rw [List.filter_map]
        by_cases hia : i = a
        · subst hia
          simp [Function.comp_def, hlen]
        · simp [Function.comp_def, hia]
      show ((((dayRange s e).map fun d => (histUrl d (icaoSuffix i) i, i))
            ++ generate_urls rest s e false).filter
            fun p => decide (p.2 = a)).length = _
      rw [List.filter_append, List.length_append, ih, hblock, List.filter_cons]
      by_cases hia : i = a
      · simp [hia, Nat.add_mul, Nat.one_mul, Nat.add_comm]
      · simp [hia]
  · intro a
    induction ids with
    | nil => rfl
    | cons i rest ih =>
      show (([(recentUrl (icaoSuffix i) i, i)]
            ++ generate_urls rest s e true).filter
            fun p => decide (p.2 = a)).length = _
      rw [List.filter_append, List.length_append, ih, List.filter_cons,
        List.filter_cons]
      by_cases hia : i = a
      · simp [hia, Nat.add_comm]
      · simp [hia]
  · have hpw : List.Pairwise (fun d₁ d₂ => d₁ < d₂) (dayRange s e) := by
      rw [dayRange]
      refine List.Pairwise.map _ ?_ (List.pairwise_lt_range _)
      intro i j hij
      omega
    exact hpw.chain'

/-- Witness for C5: one aircraft over a two-day range yields two pairs. -/
theorem query_builder_counts_witness :
    (0 : Int) ≤ 1 ∧
    ((generate_urls ["0d086e"] 0 1 false).filter
        fun p => decide (p.2 = "0d086e")).length
      = (["0d086e"].filter fun x => decide (x = "0d086e")).length
          * (((1 : Int) - 0).toNat + 1) :=
  ⟨by decide, (query_builder_counts ["0d086e"] 0 1 (by decide)).2.1 "0d086e"⟩

/-- What a produced leg record says about its (nonempty) sorted group. -/
lemma buildLeg_mem_spec (rows : List ORow) (k : String) (leg : LegRow)
    (h : buildLeg rows k = some leg) :
    leg.flight_leg = k ∧
    ∃ p rest, sortByPt (rows.filter fun r => decide (r.flight_leg = k)) = p :: rest ∧
      leg.icao = p.icao ∧ leg.call_sign = p.call_sign ∧ leg.leg_id = p.leg_id ∧
      leg.geometry = (if (p :: rest).length > 1 then
          Geom.line ((p :: rest).map fun r => r.geometry)
        else Geom.point p.geometry) := by
  unfold buildLeg at h
  cases hs : sortByPt (rows.filter fun r => decide (r.flight_leg = k)) with
  | nil =>
    rw [hs] at h
    cases h
  | cons p rest =>
    rw [hs] at h
    rw [Option.some_inj] at h
    rw [← h]
    exact ⟨rfl, p, rest, rfl, rfl, rfl, rfl, rfl⟩

/-- Claim C6: flattening each leg geometry the Geometry Builder produces from
the Leg Segmenter's output recovers exactly that leg's point coordinate
sequence in ascending `point_time` order. -/
theorem geometry_roundtrip (f : RawFrame) (fg : Bool) (T : Int) (leg : LegRow)
    (h : leg ∈ (buildLegs (processFlightData f fg T)).legs) :
    flattenGeom leg.geometry
      = (sortByPt ((processFlightData f fg T).rows.filter
          fun r => decide (r.flight_leg = leg.flight_leg))).map fun r => r.geometry := by
  obtain ⟨k, hk, hbl⟩ := List.mem_filterMap.mp h
  obtain ⟨hfl, p, rest, hs, _, _, _, hg⟩ := buildLeg_mem_spec _ _ _ hbl
  rw [hfl, hs, hg]
  cases rest with
  | nil =>
    rw [if_neg (by simp)]
    rfl
  | cons q rest₂ =>
    rw [if_pos (by simp)]
    rfl

/-- Witness for C6: the two-point leg of `exRound` flattens back to its
chronological coordinate sequence. -/
theorem geometry_roundtrip_witness :
    flattenGeom exRoundLeg.geometry
      = (sortByPt ((processFlightData exRound false 3600).rows.filter
          fun r => decide (r.flight_leg = exRoundLeg.flight_leg))).map
            fun r => r.geometry :=
  geometry_roundtrip exRound false 3600 exRoundLeg (by decide)

/-- Claim C7: each leg record's group, sorted ascending by `point_time`, gives
the record's geometry — the single point itself for a one-point group,
the polyline through the ordered points for a larger group — and the
scalar attributes come from the first row of the sorted group. -/
theorem geometry_builder_groups (g : GeoFrame) (leg : LegRow)
    (h : leg ∈ (buildLegs g).legs) :
    List.Pairwise (fun x y : ORow => x.point_time ≤ y.point_time)
        (sortByPt (g.rows.filter fun r => decide (r.flight_leg = leg.flight_leg)))
    ∧ (sortByPt (g.rows.filter fun r => decide (r.flight_leg = leg.flight_leg))).Perm
        (g.rows.filter fun r => decide (r.flight_leg = leg.flight_leg))
    ∧ (∀ p, sortByPt (g.rows.filter fun r => decide (r.flight_leg = leg.flight_leg))
          = [p] →
        leg.geometry = Geom.point p.geometry ∧ leg.icao = p.icao ∧
          leg.call_sign = p.call_sign ∧ leg.leg_id = p.leg_id)
    ∧ (∀ p q rest, sortByPt (g.rows.filter fun r => decide (r.flight_leg = leg.flight_leg))
          = p :: q :: rest →
        leg.geometry = Geom.line ((p :: q :: rest).map fun r => r.geometry)
          ∧ leg.icao = p.icao ∧ leg.call_sign = p.call_sign ∧ leg.leg_id = p.leg_id) := by
  obtain ⟨k, hk, hbl⟩ := List.mem_filterMap.mp h
  obtain ⟨hfl, p, rest, hs, hi, hc, hl, hg⟩ := buildLeg_mem_spec _ _ _ hbl
  rw [hfl]
  refine ⟨List.Pairwise.imp (fun hle => hle) (List.sorted_insertionSort ptLeRel _),
    List.perm_insertionSort ptLeRel _, ?_, ?_⟩
  · intro p₂ hp₂
    rw [hs] at hp₂
    rw [List.cons.injEq] at hp₂
    obtain ⟨hp, hr⟩ := hp₂
    subst hp
    subst hr
    rw [if_neg (by simp)] at hg
    exact ⟨hg, hi, hc, hl⟩
  · intro p₂ q rest₂ hp₂
    rw [hs] at hp₂
    rw [List.cons.injEq] at hp₂
    obtain ⟨hp, hr⟩ := hp₂
    subst hp
    subst hr
    rw [if_pos (by simp)] at hg
    exact ⟨hg, hi, hc, hl⟩

/-- Witness for C7: the single-point leg of `exSingle` yields a point
geometry (not a polyline) and takes its attributes from that row. -/
theorem geometry_builder_groups_witness :
    exSingleLeg.geometry = Geom.point
        ((⟨0, Altitude.num 10, 1, 2, 3, 4, "c", some "CS", some 1, "CS_leg1",
          (4, 3)⟩ : ORow)).geometry
    ∧ exSingleLeg.icao = "c" ∧ exSingleLeg.call_sign = some "CS"
    ∧ exSingleLeg.leg_id = some 1 :=
  (geometry_builder_groups exSingle exSingleLeg (by decide)).2.2.1
    ⟨0, Altitude.num 10, 1, 2, 3, 4, "c", some "CS", some 1, "CS_leg1", (4, 3)⟩
    (by decide)

/-- Claim C8: `create_linestrings` raises the missing-column error exactly when
the grouping column or the time column is absent from the input schema;
with both present it returns the built legs (never that error), and the
check precedes any geometry construction. -/
theorem linestrings_missing_column_iff (cols : List String) (g : GeoFrame)
    (a b : String) :
    ((∃ msg, create_linestrings cols g a b = Except.error msg) ↔ a ∉ cols ∨ b ∉ cols)
    ∧ (a ∈ cols → b ∈ cols →
        create_linestrings cols g a b = Except.ok (buildLegs g)) := by
  unfold create_linestrings
  by_cases h₁ : a ∈ cols <;> by_cases h₂ : b ∈ cols <;> simp [h₁, h₂]

/-- Witness for C8: with both default columns present the builder
returns the legs. -/
theorem linestrings_missing_column_iff_witness :
    create_linestrings ["flight_leg", "point_time"] ⟨some 4326, []⟩
        "flight_leg" "point_time"
      = Except.ok (buildLegs ⟨some 4326, []⟩) :=
  (linestrings_missing_column_iff ["flight_leg", "point_time"] ⟨some 4326, []⟩
      "flight_leg" "point_time").2 (by decide) (by decide)

end FlightTracer
